import Mathlib

/-!
# Verification of the aperoll star-plot and proseco-orchestration logic

A shallow embedding, in Lean 4, of the parts of the `aperoll` repository that
the frozen claims are about:

* `StarView.set_visibility`, `StarView.scale` and the pointer-gesture state
  machine of `StarView` (`src/aperoll/widgets/star_plot.py`);
* `StarField.update_stars`, `StarField.set_state` and
  `StarField.set_attitude` (`src/aperoll/widgets/star_plot.py`);
* `CachedVal` / `ProsecoData.run_proseco` / `ProsecoData.run_sparkles`
  (`src/aperoll/proseco_data.py`);
* `ProsecoParams.include_star` (`src/aperoll/widgets/proseco_params.py`).

Machine floats are modelled as exact rationals: every comparison the code
performs is an exact comparison, so the branch structure is preserved.
External libraries (the AGASC star database, healpix cone search, proseco,
sparkles) enter the model as explicit function parameters, never as stubs
with fixed answers.
-/

namespace Aperoll

/-! ## Star visibility (`StarView.set_visibility`, star_plot.py lines 353-380)

The python code is:

    r_threshold = [2, 4, 6, 8, 10, 11, 15]
    mags = [14, 11, 10.3, 9, 9.5, 8, 7, 3]
    ...
    max_mag = mags[np.digitize(radius, r_threshold)]
    hide = (r > radius) | (self.scene()._stars["MAG_ACA"] > max_mag)

`np.digitize(x, bins)` with increasing `bins` and the default `right=False`
returns the index `i` with `bins[i-1] <= x < bins[i]`, which for a sorted
list is the number of bin edges that are `<= x`.
-/

def r_threshold : List ℚ := [2, 4, 6, 8, 10, 11, 15]

def mags : List ℚ := [14, 11, 103/10, 9, 19/2, 8, 7, 3]

/-- `np.digitize x r_threshold`: the number of edges `<= x` (bins sorted,
`right=False`). -/
def digitize (x : ℚ) : ℕ := (r_threshold.filter (fun b => decide (b ≤ x))).length

/-- `mags[np.digitize(radius, r_threshold)]`. -/
def max_mag (radius : ℚ) : ℚ := mags.getD (digitize radius) 0

/-- `hide = (r > radius) | (mag > max_mag)`; a star is shown iff not hidden.
`radius` is the current visible radius in degrees, `r` the star's angular
distance from the attitude center, `mag` its magnitude. -/
def star_visible (radius r mag : ℚ) : Bool :=
  !(decide (r > radius) || decide (mag > max_mag radius))

/-- The threshold table as the spec words it: the bucket of the highest
radius bound that the current radius meets. -/
def specThreshold (radius : ℚ) : ℚ :=
  if radius < 2 then 14
  else if radius < 4 then 11
  else if radius < 6 then 103/10
  else if radius < 8 then 9
  else if radius < 10 then 19/2
  else if radius < 11 then 8
  else if radius < 15 then 7
  else 3

theorem max_mag_eq_specThreshold (x : ℚ) : max_mag x = specThreshold x := by
  rcases lt_or_le x 2 with h1 | h1
  · have e4 : ¬ (4:ℚ) ≤ x := by linarith
    have e6 : ¬ (6:ℚ) ≤ x := by linarith
    have e8 : ¬ (8:ℚ) ≤ x := by linarith
    have e10 : ¬ (10:ℚ) ≤ x := by linarith
    have e11 : ¬ (11:ℚ) ≤ x := by linarith
    have e15 : ¬ (15:ℚ) ≤ x := by linarith
    simp [max_mag, digitize, r_threshold, mags, specThreshold, h1,
      not_le.mpr h1, e4, e6, e8, e10, e11, e15]
  · rcases lt_or_le x 4 with h2 | h2
    · have e6 : ¬ (6:ℚ) ≤ x := by linarith
      have e8 : ¬ (8:ℚ) ≤ x := by linarith
      have e10 : ¬ (10:ℚ) ≤ x := by linarith
      have e11 : ¬ (11:ℚ) ≤ x := by linarith
      have e15 : ¬ (15:ℚ) ≤ x := by linarith
      simp [max_mag, digitize, r_threshold, mags, specThreshold, h1, h2,
        not_lt.mpr h1, not_le.mpr h2, e6, e8, e10, e11, e15]
    · rcases lt_or_le x 6 with h3 | h3
      · have e8 : ¬ (8:ℚ) ≤ x := by linarith
        have e10 : ¬ (10:ℚ) ≤ x := by linarith
        have e11 : ¬ (11:ℚ) ≤ x := by linarith
        have e15 : ¬ (15:ℚ) ≤ x := by linarith
        simp [max_mag, digitize, r_threshold, mags, specThreshold, h1, h2, h3,
          not_lt.mpr h1, not_lt.mpr h2, not_le.mpr h3, e8, e10, e11, e15]
      · rcases lt_or_le x 8 with h4 | h4
        · have e10 : ¬ (10:ℚ) ≤ x := by linarith
          have e11 : ¬ (11:ℚ) ≤ x := by linarith
          have e15 : ¬ (15:ℚ) ≤ x := by linarith
          simp [max_mag, digitize, r_threshold, mags, specThreshold, h1, h2, h3,
            h4, not_lt.mpr h1, not_lt.mpr h2, not_lt.mpr h3, not_le.mpr h4,
            e10, e11, e15]
        · rcases lt_or_le x 10 with h5 | h5
          · have e11 : ¬ (11:ℚ) ≤ x := by linarith
            have e15 : ¬ (15:ℚ) ≤ x := by linarith
            simp [max_mag, digitize, r_threshold, mags, specThreshold, h1, h2,
              h3, h4, h5, not_lt.mpr h1, not_lt.mpr h2, not_lt.mpr h3,
              not_lt.mpr h4, not_le.mpr h5, e11, e15]
          · rcases lt_or_le x 11 with h6 | h6
            · have e15 : ¬ (15:ℚ) ≤ x := by linarith
              simp [max_mag, digitize, r_threshold, mags, specThreshold, h1,
                h2, h3, h4, h5, h6, not_lt.mpr h1, not_lt.mpr h2,
                not_lt.mpr h3, not_lt.mpr h4, not_lt.mpr h5, not_le.mpr h6,
                e15]
            · rcases lt_or_le x 15 with h7 | h7
              · simp [max_mag, digitize, r_threshold, mags, specThreshold, h1,
                  h2, h3, h4, h5, h6, h7, not_lt.mpr h1, not_lt.mpr h2,
                  not_lt.mpr h3, not_lt.mpr h4, not_lt.mpr h5, not_lt.mpr h6,
                  not_le.mpr h7]
              · simp [max_mag, digitize, r_threshold, mags, specThreshold, h1,
                  h2, h3, h4, h5, h6, h7, not_lt.mpr h1, not_lt.mpr h2,
                  not_lt.mpr h3, not_lt.mpr h4, not_lt.mpr h5, not_lt.mpr h6,
                  not_lt.mpr h7]

theorem nine_le_specThreshold (x : ℚ) : 9 ≤ specThreshold x ↔ x < 10 := by
  unfold specThreshold
  split_ifs with h1 h2 h3 h4 h5 h6 h7
  · exact ⟨fun _ => by linarith, fun _ => by norm_num⟩
  · exact ⟨fun _ => by linarith, fun _ => by norm_num⟩
  · exact ⟨fun _ => by linarith, fun _ => by norm_num⟩
  · exact ⟨fun _ => by linarith, fun _ => by norm_num⟩
  · exact ⟨fun _ => h5, fun _ => by norm_num⟩
  · exact ⟨fun h => by norm_num at h, fun h => absurd h h5⟩
  · exact ⟨fun h => by norm_num at h, fun h => absurd h h5⟩
  · exact ⟨fun h => by norm_num at h, fun h => absurd h h5⟩

/-- C1 (counterexample): the claim asserts that a star at separation 2.5° with
magnitude 9.0 is visible whenever the visible radius is at least 4°. At
visible radius 10° the code selects the bucket with threshold magnitude 8
(`mags[np.digitize(10, r_threshold)] = mags[5] = 8`), and 9.0 > 8, so the
star is hidden although 10 ≥ 4. -/
theorem c1_counterexample :
    (4:ℚ) ≤ 10 ∧ star_visible 10 (5/2) 9 = false := by
  constructor
  · norm_num
  · norm_num [star_visible, max_mag, digitize, r_threshold, mags]

/-- C1 (amended): a star is shown by `set_visibility` iff its angular
distance from the attitude center is at most the visible radius and its
magnitude is at most the table threshold for that radius — the bucket of the
highest radius bound the current radius meets (so `max_mag` equals the
spec-worded `specThreshold`). The particular star at separation 2.5° with
magnitude 9.0 is visible exactly when the visible radius is at least 2.5°
and below 10° (not "whenever the radius is at least 4°": the buckets at
radius 10 and beyond have thresholds 8, 7 and 3, all below 9.0; and the
threshold for radius 4 is 10.3, not 11). -/
theorem c1_set_visibility_amended (radius r mag : ℚ) :
    (star_visible radius r mag = true ↔ r ≤ radius ∧ mag ≤ specThreshold radius) ∧
    (star_visible radius (5/2) 9 = true ↔ 5/2 ≤ radius ∧ radius < 10) := by
  have hiff : ∀ r₀ mag₀ : ℚ,
      star_visible radius r₀ mag₀ = true ↔ r₀ ≤ radius ∧ mag₀ ≤ specThreshold radius := by
    intro r₀ mag₀
    simp [star_visible, max_mag_eq_specThreshold, not_lt]
  refine ⟨hiff r mag, ?_⟩
  rw [hiff (5/2) 9, nine_le_specThreshold]

/-! ## Zoom cap (`StarView.scale`, star_plot.py lines 393-411)

The python code is:

    tl = self.mapToScene(self.viewport().rect().topLeft())
    br = self.mapToScene(self.viewport().rect().bottomRight())
    width = np.abs(tl.x() - br.x())
    height = np.abs(tl.y() - br.y())
    if (width * 5 / 3600 / sx >= 15) or (height * 5 / 3600 / sy >= 15):
        return
    super().scale(sx, sy)
    ...
    side = max(np.abs(tl.x() - br.x()), np.abs(tl.y() - br.y())) / 2
    radius = 1.5 * side * 5 / 3600
    self.scene().update_stars(radius=radius)

Scaling the view by `(sx, sy)` divides the visible scene extent by `sx`
(resp. `sy`), so `width / sx` is the post-zoom visible width in scene
pixels, and `* 5 / 3600` converts pixels to degrees.
-/

/-- The visible viewport extent in scene pixels, plus the star-field update
radius last handed to `update_stars`. -/
structure ViewState where
  width : ℚ
  height : ℚ
  update_radius : ℚ
deriving DecidableEq

/-- `StarView.scale(sx, sy)`. -/
def scaleView (sx sy : ℚ) (st : ViewState) : ViewState :=
  if st.width * 5 / 3600 / sx ≥ 15 ∨ st.height * 5 / 3600 / sy ≥ 15 then st
  else
    { width := st.width / sx
      height := st.height / sy
      update_radius := 3/2 * (max (st.width / sx) (st.height / sy) / 2) * 5 / 3600 }

/-- C3 (counterexample): the claim rejects a zoom only when the resulting
field of view would *exceed* 15°. With visible width 21600 scene pixels
(30°) and zoom factor 2, the resulting width is exactly
`10800 * 5 / 3600 = 15`°, which does not exceed 15°, so the claim says the
scale is applied and the radius re-derived; the code's `>= 15` test rejects
it and leaves the view (including the stale update radius) unchanged. -/
theorem c3_counterexample :
    ¬ ((21600:ℚ) / 2 * 5 / 3600 > 15) ∧ ¬ ((720:ℚ) / 2 * 5 / 3600 > 15) ∧
      scaleView 2 2 ⟨21600, 720, 0⟩ = ⟨21600, 720, 0⟩ ∧
      (21600:ℚ) / 2 ≠ 21600 := by
  refine ⟨by norm_num, by norm_num, ?_, by norm_num⟩
  norm_num [scaleView]

/-- C3 (amended): a zoom request that would make the visible field of view
*reach or exceed* 15° in either dimension is rejected and leaves the view
state (scale and update radius) unchanged; otherwise the scale is applied —
the visible extent is divided by the zoom factors — and the star-field load
radius is re-derived from the new extent as
`1.5 * (max width height / 2) * 5 / 3600` degrees. -/
theorem c3_scale_amended (sx sy : ℚ) (st : ViewState) :
    (((15 ≤ st.width / sx * 5 / 3600 ∨ 15 ≤ st.height / sy * 5 / 3600) →
        scaleView sx sy st = st) ∧
     (st.width / sx * 5 / 3600 < 15 → st.height / sy * 5 / 3600 < 15 →
        scaleView sx sy st =
          { width := st.width / sx
            height := st.height / sy
            update_radius := 3/2 * (max (st.width / sx) (st.height / sy) / 2) * 5 / 3600 })) := by
  have hw : st.width * 5 / 3600 / sx = st.width / sx * 5 / 3600 := by
    field_simp
    ring
  have hh : st.height * 5 / 3600 / sy = st.height / sy * 5 / 3600 := by
    field_simp
    ring
  constructor
  · intro h
    rw [scaleView, if_pos]
    rw [hw, hh]
    exact h
  · intro h1 h2
    rw [scaleView, if_neg]
    rw [hw, hh]
    push_neg
    exact ⟨h1, h2⟩

/-! ## Display-state (mode) switching (`StarField.set_state`, star_plot.py
lines 456-468, with `_COMMON_STATES` lines 44-81)

The python code is:

    @utils.single_entry
    def set_state(self, state_name):
        self._state = replace(self.states[state_name])
        self.enable_fov(self._state.enable_fov)
        self.enable_alternate_fov(self._state.enable_alternate_fov)
        self.enable_catalog(self._state.enable_catalog)
        self.alternate_fov.show_centroids = self._state.enable_alternate_fov_centroids
        self.main_fov.show_centroids = self._state.enable_centroids
        self.onboard_attitude_slot = self._state.onboard_attitude_slot
        self.state_changed.emit(state_name)

`single_entry` only drops re-entrant calls; for a top-level (non-re-entrant)
call it is the identity, which is the case modelled here. Events are
modelled as an append-only log of the emitted `state_changed` payloads.
-/

/-- `StarFieldState` (star_plot.py lines 24-41). -/
structure StarFieldState where
  name : String
  onboard_attitude_slot : Option String
  enable_fov : Bool
  enable_alternate_fov : Bool
  enable_catalog : Bool
  enable_centroids : Bool
  enable_alternate_fov_centroids : Bool
  auto_proseco : Bool
deriving DecidableEq

def telemetryState : StarFieldState :=
  ⟨"Telemetry", some "attitude", true, false, false, true, false, false⟩

def prosecoState : StarFieldState :=
  ⟨"Proseco", none, true, false, true, false, false, true⟩

def alternateFovState : StarFieldState :=
  ⟨"Alternate FOV", some "alternate_attitude", true, true, false, false, true, false⟩

/-- `_COMMON_STATES`, from which `self.states` is built keyed by name. -/
def commonStates : List StarFieldState := [telemetryState, prosecoState, alternateFovState]

/-- `self.states[state_name]` (raises `KeyError`, i.e. `none`, off the dict). -/
def statesLookup (name : String) : Option StarFieldState :=
  commonStates.find? (fun s => s.name == name)

/-- The scene fields `set_state` touches: the active state bundle, the
visibility/toggle flags of the overlay items, and the log of
`state_changed` emissions. -/
structure SceneState where
  state : StarFieldState
  main_fov_visible : Bool
  alternate_fov_visible : Bool
  catalog_visible : Bool
  main_show_centroids : Bool
  alternate_show_centroids : Bool
  state_changed_events : List String
deriving DecidableEq

/-- `StarField.enable_fov` (star_plot.py lines 674-676). -/
def enableFov (enable : Bool) (sc : SceneState) : SceneState :=
  { sc with state := { sc.state with enable_fov := enable }, main_fov_visible := enable }

/-- `StarField.enable_alternate_fov` (star_plot.py lines 666-668). -/
def enableAlternateFov (enable : Bool) (sc : SceneState) : SceneState :=
  { sc with state := { sc.state with enable_alternate_fov := enable }
            alternate_fov_visible := enable }

/-- `StarField.enable_catalog` (star_plot.py lines 686-688). -/
def enableCatalog (enable : Bool) (sc : SceneState) : SceneState :=
  { sc with state := { sc.state with enable_catalog := enable }, catalog_visible := enable }

/-- `StarField.set_state` (the `single_entry` wrapper is the identity for a
non-re-entrant call); `none` models the `KeyError` on an unknown name. -/
def setState (name : String) (sc : SceneState) : Option SceneState :=
  (statesLookup name).map fun s =>
    let sc1 := { sc with state := s }
    let sc2 := enableFov s.enable_fov sc1
    let sc3 := enableAlternateFov s.enable_alternate_fov sc2
    let sc4 := enableCatalog s.enable_catalog sc3
    let sc5 := { sc4 with alternate_show_centroids := s.enable_alternate_fov_centroids
                          main_show_centroids := s.enable_centroids }
    let sc6 := { sc5 with state := { sc5.state with
                            onboard_attitude_slot := s.onboard_attitude_slot } }
    { sc6 with state_changed_events := sc6.state_changed_events ++ [name] }

/-- The scene as it stands right after `set_state("Telemetry")`: the current
mode is "Telemetry" and every toggle matches the Telemetry bundle. -/
def telemetryScene : SceneState :=
  ⟨telemetryState, true, false, false, true, false, []⟩

/-- C4 (counterexample): `set_state` has no same-mode check — re-selecting the
currently active mode still emits a `state_changed` event. From the
canonical Telemetry scene (active mode "Telemetry", toggles equal to the
Telemetry bundle, no events yet), `set_state("Telemetry")` emits one
"Telemetry" event, where the claim requires none. -/
theorem c4_counterexample :
    telemetryScene.state.name = "Telemetry" ∧
    (setState "Telemetry" telemetryScene).map (fun sc => sc.state_changed_events) =
      some ["Telemetry"] ∧
    ["Telemetry"] ≠ ([] : List String) := by
  refine ⟨rfl, ?_, by simp⟩
  rfl

/-- C4 (amended): selecting any available mode — the currently active one
included — applies that mode's complete toggle bundle in one step and emits
exactly one `state_changed` event carrying the mode's name. Re-selecting
the active mode therefore changes no overlay toggles when they already
match the bundle, but it is not a no-op: the event is still emitted. -/
theorem c4_set_state_amended (name : String) (sc : SceneState) (s : StarFieldState)
    (h : statesLookup name = some s) :
    setState name sc =
      some { state := s
             main_fov_visible := s.enable_fov
             alternate_fov_visible := s.enable_alternate_fov
             catalog_visible := s.enable_catalog
             main_show_centroids := s.enable_centroids
             alternate_show_centroids := s.enable_alternate_fov_centroids
             state_changed_events := sc.state_changed_events ++ [name] } := by
  cases s with
  | mk n slot fov afov cat cen acen auto =>
    simp [setState, h, enableFov, enableAlternateFov, enableCatalog]

/-- C4 witness: `c4_set_state_amended` evaluated at the Proseco mode from the
canonical Telemetry scene. -/
theorem c4_set_state_amended_witness :
    setState "Proseco" telemetryScene =
      some { state := prosecoState
             main_fov_visible := prosecoState.enable_fov
             alternate_fov_visible := prosecoState.enable_alternate_fov
             catalog_visible := prosecoState.enable_catalog
             main_show_centroids := prosecoState.enable_centroids
             alternate_show_centroids := prosecoState.enable_alternate_fov_centroids
             state_changed_events := telemetryScene.state_changed_events ++ ["Proseco"] } :=
  c4_set_state_amended "Proseco" telemetryScene prosecoState (by rfl)

/-! ## Attitude setting (`StarField.set_attitude`, star_plot.py lines 611-638;
`AttitudeWidget._set_attitude`, attitude_widget.py lines 327-346)

The python code (star_plot.py) is:

    @utils.single_entry
    def set_attitude(self, attitude, emit=False):
        q1 = None if self._attitude is None else self._attitude.q
        q2 = None if attitude is None else Quat(attitude).q
        if not np.all(q1 == q2):
            ...
            self._attitude = attitude
            self.update_stars()
            if emit:
                self.attitude_changed.emit()

`np.all(q1 == q2)` is exact element-wise floating-point equality; when one
side is `None` and the other an array, the comparison is element-wise
`False`, and `np.all(None == None)` is true. Notifications are modelled by
a counter of `attitude_changed` emissions.
-/

/-- A quaternion as its four components (floats modelled as exact rationals,
matching the exact `==` comparison the code performs). -/
structure Quat4 where
  q1 : ℚ
  q2 : ℚ
  q3 : ℚ
  q4 : ℚ
deriving DecidableEq

/-- `np.all(q1 == q2)` with the `None` cases as the code produces them. -/
def sameQuat : Option Quat4 → Option Quat4 → Bool
  | none, none => true
  | some a, some b => decide (a = b)
  | _, _ => false

/-- The scene fields `set_attitude` touches: the held attitude and the count
of `attitude_changed` emissions. -/
structure AttitudeScene where
  attitude : Option Quat4
  emit_count : ℕ
deriving DecidableEq

/-- `StarField.set_attitude(attitude, emit)`; the `single_entry` wrapper is
the identity for a non-re-entrant call. -/
def setAttitude (att : Option Quat4) (emit : Bool) (sc : AttitudeScene) : AttitudeScene :=
  if sameQuat sc.attitude att then sc
  else { attitude := att, emit_count := sc.emit_count + (if emit then 1 else 0) }

/-- C6 (counterexample): the claim says a differing quaternion is stored and
observers are notified exactly once, for *every* attitude-set call. The
`emit` flag of `StarField.set_attitude` defaults to `False` (the `attitude`
property setter and `StarPlot.set_base_attitude` call it that way), so this
call stores the new, component-wise different attitude yet notifies zero
observers. -/
theorem c6_counterexample :
    sameQuat (some ⟨1, 0, 0, 0⟩) (some ⟨0, 1, 0, 0⟩) = false ∧
    (setAttitude (some ⟨0, 1, 0, 0⟩) false ⟨some ⟨1, 0, 0, 0⟩, 0⟩).attitude =
      some ⟨0, 1, 0, 0⟩ ∧
    (setAttitude (some ⟨0, 1, 0, 0⟩) false ⟨some ⟨1, 0, 0, 0⟩, 0⟩).emit_count = 0 := by
  refine ⟨?_, ?_, ?_⟩ <;> norm_num [sameQuat, setAttitude, Quat4.mk.injEq]

/-- C6 (amended): if the supplied attitude's quaternion equals the held one
component for component (exact comparison, no epsilon — `sameQuat` is exact
component-wise equality), the call stores nothing and notifies nobody; if
any component differs, the new attitude is stored and observers are
notified exactly once *when the call's `emit` flag is set*, and not at all
when it is unset (as it is by default). -/
theorem c6_set_attitude_amended (att : Option Quat4) (e : Bool) (sc : AttitudeScene) :
    (∀ a b : Quat4, sameQuat (some a) (some b) = true ↔
        a.q1 = b.q1 ∧ a.q2 = b.q2 ∧ a.q3 = b.q3 ∧ a.q4 = b.q4) ∧
    (sameQuat sc.attitude att = true → setAttitude att e sc = sc) ∧
    (sameQuat sc.attitude att = false →
        (setAttitude att e sc).attitude = att ∧
        (setAttitude att e sc).emit_count =
          sc.emit_count + (if e then 1 else 0)) := by
  refine ⟨?_, ?_, ?_⟩
  · intro a b
    cases a
    cases b
    simp [sameQuat, Quat4.mk.injEq]
  · intro h
    simp [setAttitude, h]
  · intro h
    simp [setAttitude, h]

/-! ## Pointer gestures (`StarView.mousePressEvent` lines 171-175,
`mouseMoveEvent` lines 124-163, `mouseReleaseEvent` lines 165-169 of
star_plot.py)

The python state is `_start : Option point`, `_moving : bool`,
`_rotating : bool`. On a left-button press both flags are cleared and the
position recorded; on a move with a recorded start, a changed position sets
`_rotating` when Shift is held and `_moving` otherwise (neither flag is
ever cleared by a move); then, if either flag is set, the move pans when
`_moving` is set and rotates otherwise (`if self._moving: ... elif
self._rotating: ...`). Release only clears `_start`.
-/

structure GestureState where
  start : Option (ℤ × ℤ)
  moving : Bool
  rotating : Bool
deriving DecidableEq

inductive PointerEvent where
  | press (pos : ℤ × ℤ)
  | move (pos : ℤ × ℤ) (shiftHeld : Bool)
  | release
deriving DecidableEq

/-- What a single event does to the scene: nothing, a pan (`shift_scene`), or
a roll (`rotate_scene`). -/
inductive MoveAction where
  | noAction
  | pan
  | rotate
deriving DecidableEq

/-- One pointer event of the `StarView` gesture machine. -/
def gestureStep : PointerEvent → GestureState → GestureState × MoveAction
  | .press p, _ => ({ start := some p, moving := false, rotating := false }, .noAction)
  | .release, g => ({ g with start := none }, .noAction)
  | .move p shift, g =>
    match g.start with
    | none => (g, .noAction)
    | some s =>
      let g1 :=
        if p ≠ s then
          if shift then { g with rotating := true } else { g with moving := true }
        else g
      if g1.moving ∨ g1.rotating then
        (({ g1 with start := some p }), if g1.moving then .pan else .rotate)
      else (g1, .noAction)

/-- A whole event sequence, collecting the per-event actions in order. -/
def runGesture (evs : List PointerEvent) (g : GestureState) :
    GestureState × List MoveAction :=
  match evs with
  | [] => (g, [])
  | ev :: rest =>
    let (g1, a) := gestureStep ev g
    let (g2, as) := runGesture rest g1
    (g2, a :: as)

/-- C9 (counterexample): within a single gesture (one press, no release), a
Shift-move first chooses rotation, and a subsequent unmodified move sets
`_moving` as well — both flags end up true simultaneously and the action
performed switches from rotate to pan, because `if self._moving: ... elif
self._rotating: ...` gives panning priority. -/
theorem c9_counterexample :
    (runGesture [.press (0, 0), .move (1, 0) true, .move (2, 0) false]
        ⟨none, false, false⟩).2 = [.noAction, .rotate, .pan] ∧
    (runGesture [.press (0, 0), .move (1, 0) true, .move (2, 0) false]
        ⟨none, false, false⟩).1.moving = true ∧
    (runGesture [.press (0, 0), .move (1, 0) true, .move (2, 0) false]
        ⟨none, false, false⟩).1.rotating = true := by
  refine ⟨?_, ?_, ?_⟩ <;> rfl

/-- C9 (amended): each move event performs at most one of panning and
rotating, and panning, once begun, is permanent for the rest of the gesture:
move events never clear either flag, a state with `_moving` set never
rotates again, and a purely rotating state stays rotating on Shift-held
moves. The original claim fails only in the other direction — a gesture
that began rotating switches to panning on its first unmodified move (see
the counterexample). -/
theorem c9_gesture_amended (g : GestureState) (p : ℤ × ℤ) (s : Bool) :
    ((gestureStep (.move p s) g).1.moving = true ∨ g.moving = false) ∧
    ((gestureStep (.move p s) g).1.rotating = true ∨ g.rotating = false) ∧
    (g.moving = true → (gestureStep (.move p s) g).1.moving = true) ∧
    (g.rotating = true → (gestureStep (.move p s) g).1.rotating = true) ∧
    (g.moving = true → (gestureStep (.move p s) g).2 ≠ MoveAction.rotate) ∧
    (g.rotating = true → g.moving = false → s = true →
        (gestureStep (.move p s) g).2 ≠ MoveAction.pan) := by
  cases g with
  | mk st mv rot =>
    cases st with
    | none =>
      refine ⟨?_, ?_, ?_, ?_, ?_, ?_⟩ <;> simp [gestureStep]
    | some q =>
      by_cases hpq : p = q <;> by_cases hs : s = true <;> cases mv <;> cases rot <;>
        simp_all [gestureStep]

/-! ## Force-include/exclude lists (`ProsecoParams.include_star`,
proseco_params.py lines 100-133)

The python code manipulates the four parameter entries
`include_ids_acq`, `exclude_ids_acq`, `include_ids_guide`,
`exclude_ids_guide`, which are python lists:

    if include is True:
        if star not in self._parameters[f"include_ids_{type}"]:
            self._parameters[f"include_ids_{type}"].append(star)
        if star in self._parameters[f"exclude_ids_{type}"]:
            self._parameters[f"exclude_ids_{type}"].remove(star)
    elif include is False: ...  (mirror image)
    else: ...  (remove from both)

`list.remove` deletes only the *first* occurrence, which the embedding
keeps (`List.erase`).
-/

structure IncludePair where
  include_ids : List ℤ
  exclude_ids : List ℤ
deriving DecidableEq

/-- `if star not in l: l.append(star)`. -/
def pyAppendNew (l : List ℤ) (s : ℤ) : List ℤ := if s ∈ l then l else l ++ [s]

/-- `if star in l: l.remove(star)` — python's `remove` drops the first
occurrence only. -/
def pyRemove (l : List ℤ) (s : ℤ) : List ℤ := if s ∈ l then l.erase s else l

def includeStarPair (star : ℤ) (inc : Option Bool) (ip : IncludePair) : IncludePair :=
  match inc with
  | some true =>
    { include_ids := pyAppendNew ip.include_ids star
      exclude_ids := pyRemove ip.exclude_ids star }
  | some false =>
    { include_ids := pyRemove ip.include_ids star
      exclude_ids := pyAppendNew ip.exclude_ids star }
  | none =>
    { include_ids := pyRemove ip.include_ids star
      exclude_ids := pyRemove ip.exclude_ids star }

inductive StarType where
  | acq
  | guide
deriving DecidableEq

/-- The four include/exclude parameter lists, grouped by the `type` tag that
selects the dict keys. -/
structure ProsecoParamsLists where
  acq : IncludePair
  guide : IncludePair
deriving DecidableEq

def getPair (p : ProsecoParamsLists) : StarType → IncludePair
  | .acq => p.acq
  | .guide => p.guide

/-- `ProsecoParams.include_star(star, type, include)`. -/
def include_star (star : ℤ) (ty : StarType) (inc : Option Bool)
    (p : ProsecoParamsLists) : ProsecoParamsLists :=
  match ty with
  | .acq => { p with acq := includeStarPair star inc p.acq }
  | .guide => { p with guide := includeStarPair star inc p.guide }

/-- A sequence of `include_star` calls, in order. -/
def includeStarSeq (calls : List (ℤ × StarType × Option Bool))
    (p : ProsecoParamsLists) : ProsecoParamsLists :=
  match calls with
  | [] => p
  | c :: rest => includeStarSeq rest (include_star c.1 c.2.1 c.2.2 p)

/-- Total number of occurrences of `star` across one include/exclude pair. -/
def occCount (star : ℤ) (ip : IncludePair) : ℕ :=
  ip.include_ids.count star + ip.exclude_ids.count star

theorem count_pyAppendNew_self (l : List ℤ) (s : ℤ) :
    (pyAppendNew l s).count s = if s ∈ l then l.count s else l.count s + 1 := by
  unfold pyAppendNew
  split_ifs with h
  · rfl
  · simp

theorem count_pyAppendNew_ne (l : List ℤ) (s t : ℤ) (hne : t ≠ s) :
    (pyAppendNew l s).count t = l.count t := by
  unfold pyAppendNew
  split_ifs with h
  · rfl
  · simp [List.count_singleton', hne]

theorem count_pyRemove_self (l : List ℤ) (s : ℤ) :
    (pyRemove l s).count s = l.count s - 1 := by
  unfold pyRemove
  split_ifs with h
  · exact List.count_erase_self s l
  · rw [List.count_eq_zero.mpr h]

theorem count_pyRemove_ne (l : List ℤ) (s t : ℤ) (hne : t ≠ s) :
    (pyRemove l s).count t = l.count t := by
  unfold pyRemove
  split_ifs with h
  · exact List.count_erase_of_ne hne l
  · rfl

theorem mem_pyAppendNew_self (l : List ℤ) (s : ℤ) : s ∈ pyAppendNew l s := by
  unfold pyAppendNew
  split_ifs with h
  · exact h
  · simp

theorem not_mem_pyRemove_self (l : List ℤ) (s : ℤ) (h : l.count s ≤ 1) :
    s ∉ pyRemove l s := by
  rw [← List.count_eq_zero, count_pyRemove_self]
  omega

/-- One `includeStarPair` call keeps the at-most-one-occurrence invariant,
whatever star it is for. -/
theorem occCount_includeStarPair (star s : ℤ) (inc : Option Bool) (ip : IncludePair)
    (h : occCount star ip ≤ 1) : occCount star (includeStarPair s inc ip) ≤ 1 := by
  by_cases hs : star = s
  · subst hs
    unfold occCount at h ⊢
    cases inc with
    | none => simp only [includeStarPair, count_pyRemove_self]; omega
    | some b =>
      cases b with
      | true =>
        simp only [includeStarPair, count_pyAppendNew_self, count_pyRemove_self]
        split_ifs with hmem
        · have : 1 ≤ ip.include_ids.count star := List.one_le_count_iff.mpr hmem
          omega
        · have : ip.include_ids.count star = 0 := List.count_eq_zero.mpr hmem
          omega
      | false =>
        simp only [includeStarPair, count_pyAppendNew_self, count_pyRemove_self]
        split_ifs with hmem
        · have : 1 ≤ ip.exclude_ids.count star := List.one_le_count_iff.mpr hmem
          omega
        · have : ip.exclude_ids.count star = 0 := List.count_eq_zero.mpr hmem
          omega
  · unfold occCount at h ⊢
    cases inc with
    | none => simp only [includeStarPair, count_pyRemove_ne _ _ _ hs]; omega
    | some b =>
      cases b <;>
        simp only [includeStarPair, count_pyAppendNew_ne _ _ _ hs,
          count_pyRemove_ne _ _ _ hs] <;> omega

theorem getPair_include_star (star : ℤ) (ty ty' : StarType) (inc : Option Bool)
    (p : ProsecoParamsLists) :
    getPair (include_star star ty' inc p) ty =
      if ty' = ty then includeStarPair star inc (getPair p ty) else getPair p ty := by
  cases ty <;> cases ty' <;> simp [getPair, include_star]

theorem occCount_includeStarSeq (star : ℤ) (ty : StarType)
    (calls : List (ℤ × StarType × Option Bool)) (p : ProsecoParamsLists)
    (h : occCount star (getPair p ty) ≤ 1) :
    occCount star (getPair (includeStarSeq calls p) ty) ≤ 1 := by
  induction calls generalizing p with
  | nil => exact h
  | cons c rest ih =>
    refine ih _ ?_
    rw [getPair_include_star]
    split_ifs with hty
    · exact occCount_includeStarPair star c.1 c.2.2 _ h
    · exact h

theorem not_both_of_occCount (star : ℤ) (ip : IncludePair) (h : occCount star ip ≤ 1) :
    ¬(star ∈ ip.include_ids ∧ star ∈ ip.exclude_ids) := by
  rintro ⟨h1, h2⟩
  have c1 : 1 ≤ ip.include_ids.count star := List.one_le_count_iff.mpr h1
  have c2 : 1 ≤ ip.exclude_ids.count star := List.one_le_count_iff.mpr h2
  unfold occCount at h
  omega

/-- The parameter lists of the counterexample: `include_ids_acq = [7, 7]`
(the star is a member of the include list only, hence of at most one of the
two lists), all other lists empty. -/
def duplicatedLists : ProsecoParamsLists := ⟨⟨[7, 7], []⟩, ⟨[], []⟩⟩

/-- C10 (counterexample): from `include_ids_acq = [7, 7]`,
`exclude_ids_acq = []` — star 7 is a member of the include list only —
`include_star(7, "acq", False)` removes just the first occurrence of 7 from
the include list (python `list.remove`) and appends 7 to the exclude list,
leaving star 7 a member of *both* lists. -/
theorem c10_counterexample :
    (7 ∈ duplicatedLists.acq.include_ids ∧ 7 ∉ duplicatedLists.acq.exclude_ids) ∧
    7 ∈ (include_star 7 .acq (some false) duplicatedLists).acq.include_ids ∧
    7 ∈ (include_star 7 .acq (some false) duplicatedLists).acq.exclude_ids := by
  refine ⟨⟨?_, ?_⟩, ?_, ?_⟩ <;>
    simp [duplicatedLists, include_star, includeStarPair, pyRemove, pyAppendNew,
      List.erase_cons]

/-- C10 (amended): the claim holds once "in at most one of the lists" is
strengthened to "occurs at most once across the two lists" (which rules out
duplicate entries, and which every reachable state of the GUI satisfies
since `include_star` itself never introduces duplicates): under that
precondition any sequence of `include_star` calls — for this or any other
star, type or flag — keeps the star out of at least one of the two lists,
and a call for the star itself leaves it exactly where its flag says:
include-list only for `True`, exclude-list only for `False`, neither for
`None`. -/
theorem c10_include_star_amended (star : ℤ) (ty : StarType) (p : ProsecoParamsLists)
    (h : occCount star (getPair p ty) ≤ 1) :
    (∀ calls : List (ℤ × StarType × Option Bool),
      ¬(star ∈ (getPair (includeStarSeq calls p) ty).include_ids ∧
        star ∈ (getPair (includeStarSeq calls p) ty).exclude_ids)) ∧
    (star ∈ (getPair (include_star star ty (some true) p) ty).include_ids ∧
      star ∉ (getPair (include_star star ty (some true) p) ty).exclude_ids) ∧
    (star ∉ (getPair (include_star star ty (some false) p) ty).include_ids ∧
      star ∈ (getPair (include_star star ty (some false) p) ty).exclude_ids) ∧
    (star ∉ (getPair (include_star star ty none p) ty).include_ids ∧
      star ∉ (getPair (include_star star ty none p) ty).exclude_ids) := by
  have hincl : (getPair p ty).include_ids.count star ≤ 1 := by
    unfold occCount at h
    omega
  have hexcl : (getPair p ty).exclude_ids.count star ≤ 1 := by
    unfold occCount at h
    omega
  refine ⟨?_, ?_, ?_, ?_⟩
  · intro calls
    exact not_both_of_occCount star _ (occCount_includeStarSeq star ty calls p h)
  · rw [getPair_include_star]
    simp only [if_pos rfl, includeStarPair]
    exact ⟨mem_pyAppendNew_self _ _, not_mem_pyRemove_self _ _ hexcl⟩
  · rw [getPair_include_star]
    simp only [if_pos rfl, includeStarPair]
    exact ⟨not_mem_pyRemove_self _ _ hincl, mem_pyAppendNew_self _ _⟩
  · rw [getPair_include_star]
    simp only [if_pos rfl, includeStarPair]
    exact ⟨not_mem_pyRemove_self _ _ hincl, not_mem_pyRemove_self _ _ hexcl⟩

/-- C10 witness: `c10_include_star_amended` at star 7, type `acq`, and
parameter lists `include_ids_acq = [3]`, `exclude_ids_acq = [7]`. -/
theorem c10_include_star_amended_witness :
    (∀ calls : List (ℤ × StarType × Option Bool),
      ¬(7 ∈ (getPair (includeStarSeq calls ⟨⟨[3], [7]⟩, ⟨[], []⟩⟩) .acq).include_ids ∧
        7 ∈ (getPair (includeStarSeq calls ⟨⟨[3], [7]⟩, ⟨[], []⟩⟩) .acq).exclude_ids)) ∧
    (7 ∈ (getPair (include_star 7 .acq (some true) ⟨⟨[3], [7]⟩, ⟨[], []⟩⟩) .acq).include_ids ∧
      7 ∉ (getPair (include_star 7 .acq (some true) ⟨⟨[3], [7]⟩, ⟨[], []⟩⟩) .acq).exclude_ids) ∧
    (7 ∉ (getPair (include_star 7 .acq (some false) ⟨⟨[3], [7]⟩, ⟨[], []⟩⟩) .acq).include_ids ∧
      7 ∈ (getPair (include_star 7 .acq (some false) ⟨⟨[3], [7]⟩, ⟨[], []⟩⟩) .acq).exclude_ids) ∧
    (7 ∉ (getPair (include_star 7 .acq none ⟨⟨[3], [7]⟩, ⟨[], []⟩⟩) .acq).include_ids ∧
      7 ∉ (getPair (include_star 7 .acq none ⟨⟨[3], [7]⟩, ⟨[], []⟩⟩) .acq).exclude_ids) :=
  c10_include_star_amended 7 .acq ⟨⟨[3], [7]⟩, ⟨[], []⟩⟩ (by decide)

/-! ## Star-field load/unload hysteresis (`StarField.update_stars`,
star_plot.py lines 472-542)

The python code, for a fixed attitude `A` and load radius `R`
(`self._update_radius`):

    healpix_indices = set(hp.cone_search_lonlat(A.ra, A.dec, radius=R))
    add_indices = list(set(healpix_indices) - self._healpix_indices)
    healpix_indices = set(hp.cone_search_lonlat(A.ra, A.dec, radius=R * 1.5))
    remove_indices = list(self._healpix_indices - set(healpix_indices))
    # remove stars whose healpix_idx is in remove_indices
    # add all catalog stars of each cell in add_indices, tagged with the cell
    self._healpix_indices = set(np.unique(self._stars["healpix_idx"]))

The external healpix cone search and the AGASC catalog lookup are explicit
parameters: `coneSearch ρ` is the set of spatial-index cells returned for a
cone of radius `ρ` around the attitude (i.e. the cells *intersecting* that
cone), and `catalog c` the star rows stored for cell `c`. A star's sky
position is reduced to `sep`, its angular separation from the attitude
center, the only geometric datum the claim mentions. -/

structure StarRec where
  agasc_id : ℕ
  healpix_idx : ℕ
  sep : ℚ
deriving DecidableEq

/-- The star-field model state: the resident cell set `_healpix_indices` and
the resident star table `_stars`. -/
structure StarFieldData where
  resident : List ℕ
  stars : List StarRec
deriving DecidableEq

/-- `StarField.update_stars` for attitude `A` (implicit in `coneSearch`) and
load radius `R`, with attitude and time set. -/
def update_stars (coneSearch : ℚ → List ℕ) (catalog : ℕ → List StarRec) (R : ℚ)
    (st : StarFieldData) : StarFieldData :=
  let addIdx := (coneSearch R).filter (fun c => decide (c ∉ st.resident))
  let unloadIdx := coneSearch (R * (3/2))
  let removeIdx := st.resident.filter (fun c => decide (c ∉ unloadIdx))
  let kept := st.stars.filter (fun s => decide (s.healpix_idx ∉ removeIdx))
  let added := addIdx.flatMap fun c => (catalog c).map fun s => { s with healpix_idx := c }
  let stars := kept ++ added
  { resident := (stars.map (fun s => s.healpix_idx)).dedup, stars := stars }

/-- A cone search whose answer, for every radius, is the single cell 0: the
cell straddles the boundary of both the 2° load cone and the 3° unload
cone. -/
def straddlingConeSearch : ℚ → List ℕ := fun _ => [0]

/-- The catalog of cell 0 holds one star at separation 3.5° from the
attitude center — inside the cell, outside the 3° unload cone. -/
def straddlingCatalog : ℕ → List StarRec := fun _ => [⟨1, 0, 7/2⟩]

/-- C2 (counterexample): cells are loaded whole. A cell that intersects the
load cone of radius `R = 2`° is loaded with *all* its catalog stars, here a
star at separation 3.5° from the attitude center, which exceeds the unload
radius `1.5 R = 3`°. The resident star therefore does not lie within the
1.5R unload cone, refuting the claim's last conjunct (the cell-level parts
do hold, see the amended theorem). -/
theorem c2_counterexample :
    (update_stars straddlingConeSearch straddlingCatalog 2 ⟨[], []⟩).stars =
      [⟨1, 0, 7/2⟩] ∧
    (update_stars straddlingConeSearch straddlingCatalog 2 ⟨[], []⟩).resident = [0] ∧
    ¬ ((7:ℚ)/2 ≤ (3/2) * 2) := by
  refine ⟨?_, ?_, by norm_num⟩
  · rfl
  · rfl

/-- C2 (amended): after `update_stars` with load radius `R`, (i) every
resident cell either was returned by the cone search of radius `R` (it
intersects the load cone) or was resident before and returned by the cone
search of radius `1.5R`; (ii) no star is evicted unless its cell is outside
the `1.5R` cone search; (iii) no cell is evicted unless it is outside the
`1.5R` cone search. The claim's further assertion — that every resident
*star's sky position* lies within the `1.5R` cone — is false: residency is
kept per cell, and a loaded cell retains all its stars, including those
farther than `1.5R` (see the counterexample). The hypotheses are the state
invariants `update_stars` itself re-establishes: every star's cell is
resident and every resident cell has a star. -/
theorem c2_update_stars_amended (coneSearch : ℚ → List ℕ)
    (catalog : ℕ → List StarRec) (R : ℚ) (st : StarFieldData)
    (hinv : ∀ s ∈ st.stars, s.healpix_idx ∈ st.resident)
    (hres : ∀ c ∈ st.resident, ∃ s ∈ st.stars, s.healpix_idx = c) :
    (∀ c ∈ (update_stars coneSearch catalog R st).resident,
        c ∈ coneSearch R ∨ (c ∈ st.resident ∧ c ∈ coneSearch (R * (3/2)))) ∧
    (∀ s ∈ st.stars, s ∉ (update_stars coneSearch catalog R st).stars →
        s.healpix_idx ∉ coneSearch (R * (3/2))) ∧
    (∀ c ∈ st.resident, c ∉ (update_stars coneSearch catalog R st).resident →
        c ∉ coneSearch (R * (3/2))) := by
  refine ⟨?_, ?_, ?_⟩
  · intro c hc
    simp only [update_stars, List.mem_dedup, List.mem_map, List.mem_append,
      List.mem_filter, List.mem_flatMap, decide_eq_true_eq] at hc
    obtain ⟨s, hs, rfl⟩ := hc
    rcases hs with hkept | hadded
    · obtain ⟨hsmem, hnotrem⟩ := hkept
      right
      refine ⟨hinv s hsmem, ?_⟩
      by_contra hnot
      exact hnotrem ⟨hinv s hsmem, by simpa using hnot⟩
    · obtain ⟨c', hc', s₀, _, rfl⟩ := hadded
      left
      exact hc'.1
  · intro s hs hnot
    simp only [update_stars, List.mem_append, List.mem_filter,
      decide_eq_true_eq] at hnot
    push_neg at hnot
    obtain ⟨hnk, _⟩ := hnot
    exact (hnk hs).2
  · intro c hc hnot
    intro hcone
    apply hnot
    obtain ⟨s, hsmem, hsidx⟩ := hres c hc
    unfold update_stars
    simp only [List.mem_dedup, List.mem_map]
    refine ⟨s, ?_, hsidx⟩
    apply List.mem_append_left
    rw [List.mem_filter]
    refine ⟨hsmem, ?_⟩
    rw [decide_eq_true_eq]
    intro hmem
    have h2 := (List.mem_filter.mp hmem).2
    rw [decide_eq_true_eq] at h2
    exact h2 (hsidx ▸ hcone)

/-- C2 witness: `c2_update_stars_amended` at the concrete straddling-cell
inputs, starting from the empty star field (where both invariants hold
vacuously). -/
theorem c2_update_stars_amended_witness :
    (∀ c ∈ (update_stars straddlingConeSearch straddlingCatalog 2 ⟨[], []⟩).resident,
        c ∈ straddlingConeSearch 2 ∨
          (c ∈ ([] : List ℕ) ∧ c ∈ straddlingConeSearch (2 * (3/2)))) ∧
    (∀ s ∈ ([] : List StarRec),
        s ∉ (update_stars straddlingConeSearch straddlingCatalog 2 ⟨[], []⟩).stars →
        s.healpix_idx ∉ straddlingConeSearch (2 * (3/2))) ∧
    (∀ c ∈ ([] : List ℕ),
        c ∉ (update_stars straddlingConeSearch straddlingCatalog 2 ⟨[], []⟩).resident →
        c ∉ straddlingConeSearch (2 * (3/2))) :=
  c2_update_stars_amended straddlingConeSearch straddlingCatalog 2 ⟨[], []⟩
    (by simp) (by simp)

/-! ## Proseco/sparkles orchestration (`CachedVal`, `ProsecoData`,
proseco_data.py lines 17-27 and 40-66, `run_proseco` lines 127-156,
`run_sparkles` lines 158-175)

`CachedVal` wraps `ska_helpers.utils.LazyVal`: the wrapped function runs on
the first `.val` access, its return value is cached, and `reset()` discards
the cache; a raised exception is not cached. `ProsecoData.set_parameters`
stores a copy of the new parameters and resets both caches.

`run_proseco` is:

    if self._parameters:
        try:
            params = self._parameters.copy()
            keys = ["exclude_ids_acq", "include_ids_acq",
                    "exclude_ids_guide", "include_ids_guide"]
            for key in keys:
                if not params[key]:
                    del params[key]
            catalog = get_aca_catalog(**params)
            ...
            return {"catalog": catalog, "review_table": aca_review}
        except Exception as exc:
            logger.debug(...)   # logs the call stack
            raise Exception(f"ProsecoData failed calling proseco: {exc}") from None
    return {}

and `run_sparkles` mirrors it behind `if self.proseco and
self.proseco["catalog"]:`. The external planner (the
`get_aca_catalog`/`get_review_table`/`check_catalog` sequence) and the
external reviewer (`sparkles.run_aca_review`) are explicit function
parameters that either return or raise; invocation counts are ghost
instrumentation. A python exception is modelled by its type name and its
`str(...)` message. -/

/-- A python exception: its type's name and its message. -/
structure PyExc where
  ty : String
  msg : String
deriving DecidableEq

/-- The parameter dict, as entries keyed by name; the orchestration code
only ever inspects the four include/exclude entries, whose values are id
lists. An empty entry list is the falsy (empty) dict. -/
abbrev Params := List (String × List ℤ)

/-- `params[key]`, `none` for a missing key (python raises `KeyError`). -/
def lookupKey (p : Params) (k : String) : Option (List ℤ) :=
  (p.find? (fun kv => kv.1 == k)).map (fun kv => kv.2)

/-- `del params[key]`. -/
def delKey (p : Params) (k : String) : Params := p.filter (fun kv => !(kv.1 == k))

def optionalKeys : List String :=
  ["exclude_ids_acq", "include_ids_acq", "exclude_ids_guide", "include_ids_guide"]

/-- `for key in keys: if not params[key]: del params[key]`; a missing key
raises `KeyError` (caught by the surrounding `except`). -/
def stripOptionalKeys (p : Params) : Except PyExc Params :=
  optionalKeys.foldlM
    (fun acc k =>
      match lookupKey acc k with
      | some v => pure (if v.isEmpty then delKey acc k else acc)
      | none => .error ⟨"KeyError", k⟩)
    p

/-- What `run_proseco` returns on success: the `{"catalog": ...,
"review_table": ...}` dict, with the catalog's truthiness kept because
`run_sparkles` tests `self.proseco["catalog"]`. -/
structure ProsecoResult where
  catalog_id : ℕ
  catalog_truthy : Bool
  review_id : ℕ
deriving DecidableEq

/-- `raise Exception(f"ProsecoData failed calling proseco: {exc}") from None`. -/
def wrapProsecoError (e : PyExc) : PyExc :=
  ⟨"Exception", "ProsecoData failed calling proseco: " ++ e.msg⟩

/-- `raise Exception(f"ProsecoData failed calling sparkles: {exc}") from None`. -/
def wrapSparklesError (e : PyExc) : PyExc :=
  ⟨"Exception", "ProsecoData failed calling sparkles: " ++ e.msg⟩

/-- `ProsecoData.run_proseco`; the second component counts external planner
invocations. `.ok none` is the empty-dict return `{}`. -/
def run_proseco (planner : Params → Except PyExc ProsecoResult) :
    Option Params → Except PyExc (Option ProsecoResult) × ℕ
  | none => (.ok none, 0)
  | some p =>
    if p.isEmpty then (.ok none, 0)
    else
      match stripOptionalKeys p with
      | .error e => (.error (wrapProsecoError e), 0)
      | .ok pStripped =>
        match planner pStripped with
        | .ok r => (.ok (some r), 1)
        | .error e => (.error (wrapProsecoError e), 1)

/-- `ProsecoData.run_sparkles`, given the (already accessed) proseco result;
the second component counts external reviewer invocations. `.ok none` is
python's implicit `None` return. -/
def run_sparkles (reviewer : ProsecoResult → Except PyExc Unit) :
    Option ProsecoResult → Except PyExc (Option Unit) × ℕ
  | none => (.ok none, 0)
  | some r =>
    if r.catalog_truthy then
      match reviewer r with
      | .ok _ => (.ok (some ()), 1)
      | .error e => (.error (wrapSparklesError e), 1)
    else (.ok none, 0)

/-- The `ProsecoData` instance state: the held parameters, the two
`CachedVal` caches, and the ghost invocation counters. -/
structure ProsecoDataState where
  parameters : Option Params
  proseco_cache : Option (Option ProsecoResult)
  sparkles_cache : Option (Option Unit)
  planner_calls : ℕ
  reviewer_calls : ℕ
deriving DecidableEq

/-- Reading the `ProsecoData.proseco` property: return the cached value, or
run `run_proseco` and cache its return value (an exception is re-raised and
not cached, as with `LazyVal`). -/
def prosecoAccess (planner : Params → Except PyExc ProsecoResult)
    (st : ProsecoDataState) : Except PyExc (Option ProsecoResult) × ProsecoDataState :=
  match st.proseco_cache with
  | some v => (.ok v, st)
  | none =>
    match run_proseco planner st.parameters with
    | (.ok v, n) =>
      (.ok v, { st with proseco_cache := some v, planner_calls := st.planner_calls + n })
    | (.error e, n) => (.error e, { st with planner_calls := st.planner_calls + n })

/-- Reading the `ProsecoData.sparkles` property: the cached value, or
`run_sparkles`, whose guard `if self.proseco and ...` first reads the
`proseco` property (possibly invoking the planner). -/
def sparklesAccess (planner : Params → Except PyExc ProsecoResult)
    (reviewer : ProsecoResult → Except PyExc Unit)
    (st : ProsecoDataState) : Except PyExc (Option Unit) × ProsecoDataState :=
  match st.sparkles_cache with
  | some v => (.ok v, st)
  | none =>
    match prosecoAccess planner st with
    | (.error e, st1) => (.error e, st1)
    | (.ok v, st1) =>
      match run_sparkles reviewer v with
      | (.ok sv, n) =>
        (.ok sv, { st1 with sparkles_cache := some sv
                            reviewer_calls := st1.reviewer_calls + n })
      | (.error e, n) =>
        (.error e, { st1 with reviewer_calls := st1.reviewer_calls + n })

/-- `ProsecoData.set_parameters` / `reset`: store (a copy of) the new
parameters and reset both `CachedVal`s. -/
def set_parameters (p : Params) (st : ProsecoDataState) : ProsecoDataState :=
  { st with parameters := some p, proseco_cache := none, sparkles_cache := none }

/-- A fresh `ProsecoData()` with no parameters. -/
def initialDataState : ProsecoDataState := ⟨none, none, none, 0, 0⟩

/-- A planner that always succeeds. -/
def okPlanner : Params → Except PyExc ProsecoResult := fun _ => .ok ⟨1, true, 1⟩

/-- A reviewer that always succeeds. -/
def okReviewer : ProsecoResult → Except PyExc Unit := fun _ => .ok ()

theorem run_proseco_calls_le (planner : Params → Except PyExc ProsecoResult)
    (ps : Option Params) : (run_proseco planner ps).2 ≤ 1 := by
  rcases ps with _ | p
  · simp [run_proseco]
  · unfold run_proseco
    by_cases hq : p.isEmpty
    · simp [hq]
    · simp only [hq, Bool.false_eq_true, if_false]
      rcases hs : stripOptionalKeys p with e | ps'
      · simp
      · rcases hp : planner ps' with e | r <;> simp [hp]

theorem prosecoAccess_cached (planner : Params → Except PyExc ProsecoResult)
    (st : ProsecoDataState) (v : Option ProsecoResult)
    (h : st.proseco_cache = some v) : prosecoAccess planner st = (.ok v, st) := by
  unfold prosecoAccess
  rw [h]

theorem prosecoAccess_ok_cache (planner : Params → Except PyExc ProsecoResult)
    (st : ProsecoDataState) (v : Option ProsecoResult)
    (h : (prosecoAccess planner st).1 = .ok v) :
    (prosecoAccess planner st).2.proseco_cache = some v := by
  obtain ⟨ps, pc, sc, nplan, nrev⟩ := st
  rcases pc with _ | w
  · unfold prosecoAccess at h ⊢
    dsimp only at h ⊢
    rcases hr : run_proseco planner ps with ⟨r, n⟩
    rcases r with e | w
    · rw [hr] at h
      simp at h
    · rw [hr] at h
      simp at h
      simp [h]
  · unfold prosecoAccess at h ⊢
    dsimp only at h ⊢
    simp at h
    simp [h]

theorem run_proseco_nonempty (planner : Params → Except PyExc ProsecoResult)
    (p pStripped : Params) (hne : p ≠ []) (hstrip : stripOptionalKeys p = .ok pStripped) :
    run_proseco planner (some p) =
      (match planner pStripped with
       | .ok r => (.ok (some r), 1)
       | .error e => (.error (wrapProsecoError e), 1)) := by
  unfold run_proseco
  have hq : p.isEmpty = false := by simpa [List.isEmpty_iff] using hne
  simp only [hq, Bool.false_eq_true, if_false, hstrip]

/-- C5 (counterexample): setting the parameters to the empty dict is a
parameter mutation, and it does invalidate both caches; but the next access
then takes `run_proseco`'s falsy branch and returns `{}` *without*
re-invoking the external planner (zero invocations), where the claim
promises a re-invocation after every mutation. -/
theorem c5_counterexample :
    (set_parameters [] initialDataState).proseco_cache = none ∧
    (set_parameters [] initialDataState).sparkles_cache = none ∧
    (prosecoAccess okPlanner (set_parameters [] initialDataState)).1 = .ok none ∧
    (prosecoAccess okPlanner (set_parameters [] initialDataState)).2.planner_calls = 0 := by
  exact ⟨rfl, rfl, rfl, rfl⟩

/-- C5 (amended): a single access runs the planner at most once; once an
access has returned a result, a further access without an intervening
parameter change returns the same cached result and leaves the state (in
particular the invocation count) untouched; every parameter mutation resets
both caches, and the next access re-invokes the external planner exactly
once *when the new parameter set is non-empty* (and its include/exclude
keys are present) — when the new parameter set is empty, the next access
returns the empty result with no planner invocation (see the
counterexample). -/
theorem c5_memoization_amended (planner : Params → Except PyExc ProsecoResult)
    (st : ProsecoDataState) (p pStripped : Params) :
    ((prosecoAccess planner st).2.planner_calls ≤ st.planner_calls + 1) ∧
    (∀ v, (prosecoAccess planner st).1 = .ok v →
        prosecoAccess planner (prosecoAccess planner st).2 =
          (.ok v, (prosecoAccess planner st).2)) ∧
    ((set_parameters p st).proseco_cache = none ∧
      (set_parameters p st).sparkles_cache = none) ∧
    (p ≠ [] → stripOptionalKeys p = .ok pStripped →
        (prosecoAccess planner (set_parameters p st)).2.planner_calls =
          st.planner_calls + 1) ∧
    (p = [] →
        (prosecoAccess planner (set_parameters p st)).1 = .ok none ∧
        (prosecoAccess planner (set_parameters p st)).2.planner_calls =
          st.planner_calls) := by
  refine ⟨?_, ?_, ⟨rfl, rfl⟩, ?_, ?_⟩
  · obtain ⟨ps, pc, sc, nplan, nrev⟩ := st
    rcases pc with _ | v
    · unfold prosecoAccess
      simp only
      rcases hr : run_proseco planner ps with ⟨r, n⟩
      have hn : n ≤ 1 := by
        have h := run_proseco_calls_le planner ps
        rw [hr] at h
        exact h
      rcases r with e | v <;> simp <;> omega
    · simp [prosecoAccess]
  · intro v hv
    exact prosecoAccess_cached planner (prosecoAccess planner st).2 v
      (prosecoAccess_ok_cache planner st v hv)
  · intro hne hstrip
    unfold prosecoAccess set_parameters
    simp only
    rw [run_proseco_nonempty planner p pStripped hne hstrip]
    rcases hp : planner pStripped with e | r <;> simp [hp]
  · intro hp
    subst hp
    exact ⟨rfl, rfl⟩

/-- C7: with the parameter set unset (`None`) or empty (and the caches
fresh, as they are after construction or any parameter mutation), the
catalog accessor returns the empty dict and the review accessor returns
`None`, both as ordinary values (`.ok`, no exception), and neither the
external planner nor the external reviewer is invoked. -/
theorem c7_empty_params_no_invocation (planner : Params → Except PyExc ProsecoResult)
    (reviewer : ProsecoResult → Except PyExc Unit) (st : ProsecoDataState)
    (h1 : st.parameters = none ∨ st.parameters = some [])
    (h2 : st.proseco_cache = none) (h3 : st.sparkles_cache = none) :
    (prosecoAccess planner st).1 = .ok none ∧
    (prosecoAccess planner st).2.planner_calls = st.planner_calls ∧
    (sparklesAccess planner reviewer st).1 = .ok none ∧
    (sparklesAccess planner reviewer st).2.planner_calls = st.planner_calls ∧
    (sparklesAccess planner reviewer st).2.reviewer_calls = st.reviewer_calls := by
  obtain ⟨ps, pc, sc, nplan, nrev⟩ := st
  simp only at h1 h2 h3
  subst h2 h3
  rcases h1 with h1 | h1 <;> subst h1 <;>
    exact ⟨rfl, rfl, rfl, rfl, rfl⟩

/-- C7 witness: `c7_empty_params_no_invocation` on a freshly constructed
`ProsecoData` with no parameters. -/
theorem c7_empty_params_no_invocation_witness :
    (prosecoAccess okPlanner initialDataState).1 = .ok none ∧
    (prosecoAccess okPlanner initialDataState).2.planner_calls =
      initialDataState.planner_calls ∧
    (sparklesAccess okPlanner okReviewer initialDataState).1 = .ok none ∧
    (sparklesAccess okPlanner okReviewer initialDataState).2.planner_calls =
      initialDataState.planner_calls ∧
    (sparklesAccess okPlanner okReviewer initialDataState).2.reviewer_calls =
      initialDataState.reviewer_calls :=
  c7_empty_params_no_invocation okPlanner okReviewer initialDataState
    (Or.inl rfl) rfl rfl

/-- A planner raising python's bare `Exception("boom")`. -/
def bareExceptionPlanner : Params → Except PyExc ProsecoResult :=
  fun _ => .error ⟨"Exception", "boom"⟩

/-- A parameter dict holding exactly the four optional include/exclude keys,
all empty. -/
def fourKeyParams : Params :=
  [("exclude_ids_acq", []), ("include_ids_acq", []),
   ("exclude_ids_guide", []), ("include_ids_guide", [])]

/-- C8 (counterexample): `run_proseco` re-raises every failure as the *bare*
`Exception` type. If the external planner itself raises a bare
`Exception`, the summarized error the caller observes has exactly the
original exception's type, refuting "whose type is distinct from the
original exception's type ... the caller never observes the original
exception type". -/
theorem c8_counterexample :
    (run_proseco bareExceptionPlanner (some fourKeyParams)).1 =
      .error ⟨"Exception", "ProsecoData failed calling proseco: boom"⟩ ∧
    (wrapProsecoError ⟨"Exception", "boom"⟩).ty = (⟨"Exception", "boom"⟩ : PyExc).ty := by
  exact ⟨rfl, rfl⟩

/-- C8 (amended): every exception `e` raised by the external planner (or
reviewer) is caught and re-raised as a single summarized error of the bare
generic type `Exception` whose message is
`"ProsecoData failed calling proseco: "` (resp. `sparkles`) followed by the
original message, with the original cause suppressed (`from None`). The
re-raised type is distinct from the original exception's type *whenever the
original is not itself the bare `Exception` type*; for a planner raising
bare `Exception` the caller observes the original type (see the
counterexample). -/
theorem c8_error_wrapping_amended (planner : Params → Except PyExc ProsecoResult)
    (reviewer : ProsecoResult → Except PyExc Unit) (p pStripped : Params)
    (e : PyExc) (r : ProsecoResult) :
    (p ≠ [] → stripOptionalKeys p = .ok pStripped → planner pStripped = .error e →
        (run_proseco planner (some p)).1 =
          .error ⟨"Exception", "ProsecoData failed calling proseco: " ++ e.msg⟩) ∧
    (r.catalog_truthy = true → reviewer r = .error e →
        (run_sparkles reviewer (some r)).1 =
          .error ⟨"Exception", "ProsecoData failed calling sparkles: " ++ e.msg⟩) ∧
    ((wrapProsecoError e).ty = "Exception" ∧ (wrapSparklesError e).ty = "Exception") ∧
    (e.ty ≠ "Exception" → (wrapProsecoError e).ty ≠ e.ty) := by
  refine ⟨?_, ?_, ⟨rfl, rfl⟩, ?_⟩
  · intro hne hstrip hfail
    rw [run_proseco_nonempty planner p pStripped hne hstrip, hfail]
    rfl
  · intro htruthy hfail
    unfold run_sparkles
    simp [htruthy, hfail, wrapSparklesError]
  · intro h
    exact fun hcontra => h hcontra.symm

/-- C8 witness: `c8_error_wrapping_amended` at a planner raising
`ValueError("bad")` and a reviewer raising the same, with the four-key
parameter dict. -/
theorem c8_error_wrapping_amended_witness :
    (fourKeyParams ≠ [] → stripOptionalKeys fourKeyParams = .ok [] →
        (fun _ => .error ⟨"ValueError", "bad"⟩ :
            Params → Except PyExc ProsecoResult) [] = .error ⟨"ValueError", "bad"⟩ →
        (run_proseco (fun _ => .error ⟨"ValueError", "bad"⟩) (some fourKeyParams)).1 =
          .error ⟨"Exception", "ProsecoData failed calling proseco: " ++
            (⟨"ValueError", "bad"⟩ : PyExc).msg⟩) ∧
    ((⟨1, true, 1⟩ : ProsecoResult).catalog_truthy = true →
        (fun _ => .error ⟨"ValueError", "bad"⟩ :
            ProsecoResult → Except PyExc Unit) ⟨1, true, 1⟩ = .error ⟨"ValueError", "bad"⟩ →
        (run_sparkles (fun _ => .error ⟨"ValueError", "bad"⟩) (some ⟨1, true, 1⟩)).1 =
          .error ⟨"Exception", "ProsecoData failed calling sparkles: " ++
            (⟨"ValueError", "bad"⟩ : PyExc).msg⟩) ∧
    ((wrapProsecoError ⟨"ValueError", "bad"⟩).ty = "Exception" ∧
      (wrapSparklesError ⟨"ValueError", "bad"⟩).ty = "Exception") ∧
    ((⟨"ValueError", "bad"⟩ : PyExc).ty ≠ "Exception" →
        (wrapProsecoError ⟨"ValueError", "bad"⟩).ty ≠ (⟨"ValueError", "bad"⟩ : PyExc).ty) :=
  c8_error_wrapping_amended (fun _ => .error ⟨"ValueError", "bad"⟩)
    (fun _ => .error ⟨"ValueError", "bad"⟩) fourKeyParams [] ⟨"ValueError", "bad"⟩ ⟨1, true, 1⟩

end Aperoll
